import Mathlib

/-!
Verification of the conversation state machine, intent dispatcher, domain
operations and mock appointment store of the superbryn backend.

The Lean definitions below are a shallow embedding of the Python sources:
  * `src/agent/conversation.py` — `ConversationState`, `ConversationContext`,
    `can_transition_to`, `transition_to`, `is_identified`;
  * `src/agent/tools.py` — the seven tool functions and the constants
    `AVAILABLE_HOURS` / `AVAILABLE_DAYS`;
  * `src/agent/router.py` — `IntentRouter._validate_state_for_intent` and
    `IntentRouter.validate_and_dispatch`;
  * `src/database.py` — `AppointmentDB` in mock mode (`MOCK_MODE = True`),
    whose store is the in-memory list `_mock_appointments`.

Modelling conventions:
  * Python strings are Lean `String`s; `None` becomes `Option.none`.
  * Wall-clock data (`datetime.now()`) is passed in explicitly: booking takes
    `today : Date`, slot generation takes `todayIdx : Nat`, a day number such
    that `todayIdx % 7 = 0` means Monday (so `strftime('%A') ∈ AVAILABLE_DAYS`
    becomes `(idx % 7) < 5`).  Timestamp fields (`created_at`, `updated_at`,
    `started_at`, durations) are pure wall-clock bookkeeping that no checked
    property reads, and are omitted from the records.
  * `conversation_history` is only ever read through its length by the code
    under proof, and is kept as the counter `conversation_turns`.
  * Human-readable message strings built by f-string interpolation are elided
    (`message` fields are dropped); fixed error strings that identify a
    failure kind (e.g. the double-booking conflict error) are kept verbatim.
-/

set_option maxHeartbeats 1600000

namespace Superbryn

/-- `ConversationState` of `src/agent/conversation.py` (lines 11-24): the nine
conversation states. -/
inductive ConversationState where
  | unidentified
  | identified
  | browsingSlots
  | booking
  | confirming
  | retrieving
  | cancelling
  | modifying
  | completed
  deriving DecidableEq, Repr

/-- The `valid_transitions` table inside `can_transition_to`
(`src/agent/conversation.py` lines 48-73). -/
def validTransitions : ConversationState → List ConversationState
  | .unidentified => [.identified]
  | .identified => [.browsingSlots, .retrieving, .cancelling, .modifying, .completed]
  | .browsingSlots => [.booking, .identified]
  | .booking => [.confirming, .identified]
  | .confirming => [.completed, .identified]
  | .retrieving => [.identified]
  | .cancelling => [.identified]
  | .modifying => [.identified]
  | .completed => []

/-- An appointment record of the mock store (`src/database.py` lines 55-64);
`created_at` is wall-clock bookkeeping and is omitted. -/
structure Appt where
  id : String
  user_phone : String
  user_name : Option String
  appointment_date : String
  appointment_time : String
  status : String
  notes : Option String
  deriving DecidableEq, Repr

/-- A slot produced by `fetch_slots` (`src/agent/tools.py` lines 78-82): the
source emits `{date: iso-string, time: "HH:00", available: True}`; the date is
modelled by its day number and the time by its hour. -/
structure Slot where
  day : Nat
  hour : Nat
  deriving DecidableEq, Repr

/-- The summary built by `end_conversation` (`src/agent/tools.py` lines
287-299); `session_duration_seconds` and `timestamp` are wall-clock and
omitted. -/
structure Summary where
  user_phone : Option String
  user_name : Option String
  conversation_turns : Nat
  intents_identified : List String
  final_state : ConversationState
  pending_appointment : Option Appt
  deriving DecidableEq, Repr

/-- A result dict returned by an `AppointmentDB` method: `{"success": ...}`
plus an `error` or an `appointment` payload. -/
structure DbResult where
  success : Bool
  error : Option String := none
  appointment : Option Appt := none
  deriving DecidableEq, Repr

/-- A result dict returned by a tool function or by the dispatcher:
`{"success": ...}` plus the payload fields the tools use. -/
structure ToolResult where
  success : Bool
  error : Option String := none
  phone : Option String := none
  appointment : Option Appt := none
  appointments : Option (List Appt) := none
  slots : Option (List Slot) := none
  total_available : Option Nat := none
  summary : Option Summary := none
  current_state : Option ConversationState := none
  deriving DecidableEq, Repr

/-- `ConversationContext` (`src/agent/conversation.py` lines 27-40):
`session_id` and `started_at` are never read by the dispatched code;
`conversation_history` is read only through `len(...)` and is kept as
`conversation_turns`. -/
structure Context where
  state : ConversationState := .unidentified
  user_phone : Option String := none
  user_name : Option String := none
  pending_appointment : Option Appt := none
  conversation_turns : Nat := 0
  identified_intents : List String := []
  deriving DecidableEq, Repr

/-- A fresh `ConversationContext()`: all dataclass defaults. -/
def initialContext : Context := {}

/-- `ConversationContext.can_transition_to` (lines 42-75). -/
def canTransitionTo (ctx : Context) (target : ConversationState) : Bool :=
  (validTransitions ctx.state).contains target

/-- `ConversationContext.transition_to` (lines 77-85): the returned `Bool` is
the method's return value, the returned `Context` the mutated object. -/
def transitionTo (ctx : Context) (target : ConversationState) : Bool × Context :=
  if canTransitionTo ctx target then (true, { ctx with state := target })
  else (false, ctx)

/-- `ConversationContext.is_identified` (lines 96-98). -/
def isIdentified (ctx : Context) : Bool :=
  ctx.user_phone.isSome && ctx.state != ConversationState.unidentified

/-- The decimal digit characters of python's `str(n)`. -/
def digitChar (d : Nat) : Char :=
  match d with
  | 0 => '0' | 1 => '1' | 2 => '2' | 3 => '3' | 4 => '4'
  | 5 => '5' | 6 => '6' | 7 => '7' | 8 => '8' | _ => '9'

/-- Fuelled decimal rendering (structural recursion on the fuel; with fuel
`≥ n` it computes the digits of `n`, see `natDigitsF_fuel_irrel`). -/
def natDigitsF : Nat → Nat → List Char
  | 0, n => [digitChar (n % 10)]
  | fuel + 1, n =>
    if n < 10 then [digitChar n]
    else natDigitsF fuel (n / 10) ++ [digitChar (n % 10)]

/-- The decimal rendering of `n`, as python's `str(n)` produces it. -/
def natDigits (n : Nat) : List Char := natDigitsF n n

/-- The mock appointment id `f"mock_{n}"` (`src/database.py` line 56). -/
def mkId (n : Nat) : String :=
  String.mk ('m' :: 'o' :: 'c' :: 'k' :: '_' :: natDigits n)

/-- The double-booking test of `create_appointment` (`src/database.py` lines
67-70): `a` occupies slot `(d, t)` with status `"booked"`. -/
def isBookedAt (a : Appt) (d t : String) : Bool :=
  a.appointment_date == d && a.appointment_time == t && a.status == "booked"

/-- `AppointmentDB.create_appointment`, mock branch (`src/database.py` lines
53-77).  The record (with id `f"mock_{len+1}"`) is built first, the store is
scanned for a booked record at the same `(date, time)`, and only on no
conflict is the record appended. -/
def createAppointment (db : List Appt) (user_phone : String)
    (user_name : Option String) (appointment_date appointment_time : String)
    (notes : Option String) : DbResult × List Appt :=
  let appt : Appt :=
    { id := mkId (db.length + 1), user_phone := user_phone,
      user_name := user_name, appointment_date := appointment_date,
      appointment_time := appointment_time, status := "booked", notes := notes }
  if db.any (fun a => isBookedAt a appointment_date appointment_time) then
    ({ success := false,
       error := some "This time slot is already booked. Please choose another time." },
     db)
  else
    ({ success := true, appointment := some appt }, db ++ [appt])

/-- `AppointmentDB.get_user_appointments`, mock branch (`src/database.py`
lines 115-124): filter by phone, then (when given) by status; always a
success. -/
def getUserAppointments (db : List Appt) (user_phone : String)
    (status : Option String) : Bool × List Appt :=
  let appointments := db.filter (fun a => a.user_phone == user_phone)
  let appointments :=
    match status with
    | some s => appointments.filter (fun a => a.status == s)
    | none => appointments
  (true, appointments)

/-- `AppointmentDB.cancel_appointment`, mock branch (`src/database.py` lines
143-155): walk the store, act on the first record whose id matches (ownership
checked, then status set to `"cancelled"` in place), `"Appointment not
found."` when none matches. -/
def cancelAppointment : List Appt → String → String → DbResult × List Appt
  | [], _, _ => ({ success := false, error := some "Appointment not found." }, [])
  | a :: rest, appointment_id, user_phone =>
    if a.id == appointment_id then
      if a.user_phone != user_phone then
        ({ success := false,
           error := some "You don\'t have permission to cancel this appointment." },
         a :: rest)
      else
        let a' := { a with status := "cancelled" }
        ({ success := true, appointment := some a' }, a' :: rest)
    else
      let r := cancelAppointment rest appointment_id user_phone
      (r.1, a :: r.2)

/-- Python's `x or y` on an optional string: `None` and `""` are falsy.  Used
by `modify_appointment` both for `check_date = new_date or appt[...]` and for
the conditional field update `if new_date: appt[...] = new_date` (the two
compute the same value). -/
def pyOr : Option String → String → String
  | some s, d => if s = "" then d else s
  | none, d => d

/-- Python truthiness of an optional string argument (`if not new_date`). -/
def pyTruthy : Option String → Bool
  | some s => s != ""
  | none => false

/-- The conflict scan of `modify_appointment` (`src/database.py` lines
205-213): some *other* record (different id) is booked at `(d, t)`. -/
def modifyConflict (db : List Appt) (appointment_id : String) (d t : String) : Bool :=
  db.any (fun o =>
    o.id != appointment_id && o.appointment_date == d &&
      o.appointment_time == t && o.status == "booked")

/-- The loop of `modify_appointment`'s mock branch (`src/database.py` lines
193-222): `full` is the whole store `self._mock_appointments`, against which
the conflict scan runs, while the recursion walks the store looking for the
first id match. -/
def modifyGo (full : List Appt) (appointment_id user_phone : String)
    (new_date new_time : Option String) :
    List Appt → DbResult × List Appt
  | [] => ({ success := false, error := some "Appointment not found." }, [])
  | a :: rest =>
    if a.id == appointment_id then
      if a.user_phone != user_phone then
        ({ success := false,
           error := some "You don\'t have permission to modify this appointment." },
         a :: rest)
      else
        let check_date := pyOr new_date a.appointment_date
        let check_time := pyOr new_time a.appointment_time
        if modifyConflict full appointment_id check_date check_time then
          ({ success := false, error := some "The new time slot is already booked." },
           a :: rest)
        else
          let a' := { a with appointment_date := pyOr new_date a.appointment_date,
                             appointment_time := pyOr new_time a.appointment_time }
          ({ success := true, appointment := some a' }, a' :: rest)
    else
      let r := modifyGo full appointment_id user_phone new_date new_time rest
      (r.1, a :: r.2)

/-- `AppointmentDB.modify_appointment`, mock branch (`src/database.py` lines
191-222). -/
def modifyAppointment (db : List Appt) (appointment_id user_phone : String)
    (new_date new_time : Option String) : DbResult × List Appt :=
  modifyGo db appointment_id user_phone new_date new_time db

/-- One store call: the three mutating operations of `AppointmentDB`. -/
inductive DbOp where
  | create (user_phone : String) (user_name : Option String)
      (appointment_date appointment_time : String) (notes : Option String)
  | cancel (appointment_id : String) (user_phone : String)
  | modify (appointment_id : String) (user_phone : String)
      (new_date new_time : Option String)

/-- The store state after one `AppointmentDB` call. -/
def applyOp (db : List Appt) : DbOp → List Appt
  | .create p n d t notes => (createAppointment db p n d t notes).2
  | .cancel i p => (cancelAppointment db i p).2
  | .modify i p nd nt => (modifyAppointment db i p nd nt).2

/-- The store after a sequence of calls, starting from the fresh mock store
`_mock_appointments = []`. -/
def runOps (ops : List DbOp) : List Appt :=
  ops.foldl applyOp []

/-- Two records double-book each other: both `"booked"` at the same
`(appointment_date, appointment_time)`. -/
def slotClash (a b : Appt) : Bool :=
  a.status == "booked" && b.status == "booked" &&
    a.appointment_date == b.appointment_date &&
    a.appointment_time == b.appointment_time

/-- The store invariant: no two records double-book each other. -/
def NoDouble (db : List Appt) : Prop :=
  db.Pairwise (fun a b => slotClash a b = false)

/-- The id layout of a reachable mock store: the record at position `i` has
id `f"mock_{i+1}"`. -/
def IdsOk (db : List Appt) : Prop :=
  db.map (fun a => a.id) = (List.range db.length).map (fun k => mkId (k + 1))

/-- `AVAILABLE_HOURS = list(range(9, 17))` (`src/agent/tools.py` line 19). -/
def AVAILABLE_HOURS : List Nat := List.range' 9 8

/-- `AVAILABLE_DAYS` (`src/agent/tools.py` line 20) lists the weekday names
Monday..Friday; weekdays are modelled as numbers with Monday = 0, so
membership of `strftime('%A')` in the list is membership of `day % 7` in
`[0, 1, 2, 3, 4]`. -/
def AVAILABLE_DAYS : List Nat := [0, 1, 2, 3, 4]

/-- Python `str.strip()`: drop leading and trailing whitespace. -/
def pyStrip (l : List Char) : List Char :=
  ((l.dropWhile Char.isWhitespace).reverse.dropWhile Char.isWhitespace).reverse

/-- The normalisation of `identify_user` (`src/agent/tools.py` line 30):
`phone.strip().replace('-', '').replace(' ', '').replace('(', '').replace(')', '')` —
the chained `replace`s delete every occurrence of the four characters. -/
def normalizePhone (phone : String) : String :=
  String.mk ((pyStrip phone.data).filter
    (fun c => !(c == '-' || c == ' ' || c == '(' || c == ')')))

/-- `\d{10,}$`: at least ten characters, all digits, to the end. -/
def matchDigits10 (l : List Char) : Bool :=
  decide (10 ≤ l.length) && l.all Char.isDigit

/-- `1?\d{10,}$`: the regex alternation of consuming an optional `'1'`. -/
def matchOpt1 (l : List Char) : Bool :=
  (match l with
   | '1' :: r => matchDigits10 r
   | _ => false) || matchDigits10 l

/-- `re.match(r'^\+?1?\d{10,}$', ...)` of `identify_user`
(`src/agent/tools.py` line 31): full-string match with an optional leading
`'+'` then an optional `'1'` then at least ten digits. -/
def matchPhoneRegex (l : List Char) : Bool :=
  (match l with
   | '+' :: r => matchOpt1 r
   | _ => false) || matchOpt1 l

/-- The spec's claimed normalisation, for comparison with the code's
`normalizePhone`: the spec says phone normalisation strips `- . ( ) space`,
i.e. it also deletes `'.'`, which the source does not. -/
def specNormalizePhone (phone : String) : String :=
  String.mk ((pyStrip phone.data).filter
    (fun c => !(c == '-' || c == '.' || c == ' ' || c == '(' || c == ')')))

/-- A calendar date, the result of `datetime.fromisoformat(date).date()`. -/
structure Date where
  year : Nat
  month : Nat
  day : Nat
  deriving DecidableEq, Repr

/-- Gregorian leap year, as `datetime` implements it. -/
def isLeap (y : Nat) : Bool :=
  (y % 4 == 0 && y % 100 != 0) || y % 400 == 0

/-- Days in a month of the Gregorian calendar (`0` for a month outside
`1..12`, which validity checking rejects anyway). -/
def daysInMonth (y m : Nat) : Nat :=
  match m with
  | 1 => 31 | 2 => if isLeap y then 29 else 28 | 3 => 31 | 4 => 30
  | 5 => 31 | 6 => 30 | 7 => 31 | 8 => 31 | 9 => 30 | 10 => 31
  | 11 => 30 | 12 => 31 | _ => 0

/-- Value of a decimal digit character. -/
def digitVal (c : Char) : Nat := c.toNat - 48

/-- Value of a string of decimal digit characters. -/
def digitsVal (l : List Char) : Nat :=
  l.foldl (fun acc c => 10 * acc + digitVal c) 0

/-- `datetime.fromisoformat(date).date()` raising `ValueError` on bad input
(`src/agent/tools.py` line 112), modelled on the canonical `YYYY-MM-DD`
layout: ten characters, digits and two dashes, a valid calendar date. -/
def parseDate (s : String) : Option Date :=
  match s.data with
  | [y1, y2, y3, y4, s1, m1, m2, s2, d1, d2] =>
    if s1 == '-' && s2 == '-' && [y1, y2, y3, y4, m1, m2, d1, d2].all Char.isDigit then
      let y := digitsVal [y1, y2, y3, y4]
      let mo := digitsVal [m1, m2]
      let da := digitsVal [d1, d2]
      if 1 ≤ y ∧ 1 ≤ mo ∧ mo ≤ 12 ∧ 1 ≤ da ∧ da ≤ daysInMonth y mo then
        some ⟨y, mo, da⟩
      else none
    else none
  | _ => none

/-- `appointment_date < datetime.now().date()` (`src/agent/tools.py` line
121): calendar order is lexicographic on (year, month, day). -/
def dateLt (a b : Date) : Bool :=
  decide (a.year < b.year ∨
    (a.year = b.year ∧ (a.month < b.month ∨ (a.month = b.month ∧ a.day < b.day))))

/-- A time of day, the result of `datetime.strptime(time, "%H:%M").time()`. -/
structure TimeHM where
  hour : Nat
  minute : Nat
  deriving DecidableEq, Repr

/-- Split a character list on `':'` (each maximal colon-free run). -/
def splitOnColon : List Char → List (List Char)
  | [] => [[]]
  | c :: r =>
    match splitOnColon r with
    | [] => []
    | cur :: rest => if c = ':' then [] :: cur :: rest else (c :: cur) :: rest

/-- `datetime.strptime(time, "%H:%M").time()` raising `ValueError` on bad
input (`src/agent/tools.py` line 113): one or two digits for the hour
(`0..23`), a colon, one or two digits for the minute (`0..59`). -/
def parseTime (s : String) : Option TimeHM :=
  match splitOnColon s.data with
  | [hs, ms] =>
    if hs ≠ [] ∧ hs.length ≤ 2 ∧ hs.all Char.isDigit = true ∧
        ms ≠ [] ∧ ms.length ≤ 2 ∧ ms.all Char.isDigit = true then
      let h := digitsVal hs
      let m := digitsVal ms
      if h < 24 ∧ m < 60 then some ⟨h, m⟩ else none
    else none
  | _ => none

/-- A db result dict passed through as a tool result (the tools return the
store's error dict unchanged on store failure). -/
def dbToolResult (r : DbResult) : ToolResult :=
  { success := r.success, error := r.error, appointment := r.appointment }

/-- `identify_user` (`src/agent/tools.py` lines 23-48). -/
def identifyUser (ctx : Context) (phone : String) (name : Option String) :
    ToolResult × Context :=
  let p := normalizePhone phone
  if !(matchPhoneRegex p.data) then
    ({ success := false,
       error := some "Invalid phone number format. Please provide a valid 10-digit phone number.",
       phone := some p }, ctx)
  else
    let ctx1 := { ctx with user_phone := some p, user_name := name }
    let ctx2 := (transitionTo ctx1 .identified).2
    ({ success := true, phone := some p }, ctx2)

/-- The mock exclusion of `fetch_slots` (`src/agent/tools.py` line 77):
`hour == 12 or (day_offset == 1 and hour in [9, 10])`. -/
def mockExcluded (day_offset hour : Nat) : Bool :=
  hour == 12 || (day_offset == 1 && [9, 10].contains hour)

/-- The slot-building loop of `fetch_slots` (`src/agent/tools.py` lines
67-82): `for day_offset in range(1, 8)`, weekday check, `for hour in
AVAILABLE_HOURS`, mock exclusion, append.  Note the loop never consults the
appointment store. -/
def fetchSlotsList (todayIdx : Nat) : List Slot :=
  (List.range' 1 7).foldl (fun slots day_offset =>
    if AVAILABLE_DAYS.contains ((todayIdx + day_offset) % 7) then
      AVAILABLE_HOURS.foldl (fun slots2 hour =>
        if !(mockExcluded day_offset hour) then
          slots2 ++ [⟨todayIdx + day_offset, hour⟩]
        else slots2) slots
    else slots) []

/-- `fetch_slots` (`src/agent/tools.py` lines 51-89): `todayIdx` is
`datetime.now().date()` as a day number. -/
def fetchSlots (ctx : Context) (todayIdx : Nat) : ToolResult × Context :=
  if !(isIdentified ctx) then
    ({ success := false,
       error := some "Please provide your phone number first so I can check available slots for you." },
     ctx)
  else
    let ctx' := (transitionTo ctx .browsingSlots).2
    let slots := fetchSlotsList todayIdx
    ({ success := true, slots := some (slots.take 10),
       total_available := some slots.length }, ctx')

/-- `book_appointment` (`src/agent/tools.py` lines 92-156): `today` is
`datetime.now().date()`. -/
def bookAppointment (today : Date) (ctx : Context) (db : List Appt)
    (date time : String) (notes : Option String) :
    ToolResult × Context × List Appt :=
  if !(isIdentified ctx) then
    ({ success := false,
       error := some "Please identify yourself first before booking an appointment." },
     ctx, db)
  else
    match parseDate date, parseTime time with
    | some appointment_date, some appointment_time =>
      if dateLt appointment_date today then
        ({ success := false,
           error := some "Cannot book appointments in the past. Please choose a future date." },
         ctx, db)
      else if !(AVAILABLE_HOURS.contains appointment_time.hour) then
        ({ success := false,
           error := some "Appointments are only available between 9 AM and 5 PM." },
         ctx, db)
      else
        let r := createAppointment db (ctx.user_phone.getD "") ctx.user_name date time notes
        if !(r.1.success) then
          (dbToolResult r.1, ctx, r.2)
        else
          let ctx1 := { ctx with pending_appointment := r.1.appointment }
          let ctx2 := (transitionTo ctx1 .completed).2
          ({ success := true, appointment := r.1.appointment }, ctx2, r.2)
    | _, _ =>
      ({ success := false,
         error := some "Invalid date or time format. Please use YYYY-MM-DD for date and HH:MM for time." },
       ctx, db)

/-- `retrieve_appointments` (`src/agent/tools.py` lines 159-185); the store
is read, never written. -/
def retrieveAppointments (ctx : Context) (db : List Appt) : ToolResult × Context :=
  if !(isIdentified ctx) then
    ({ success := false, error := some "Please provide your phone number first." }, ctx)
  else
    let ctx' := (transitionTo ctx .retrieving).2
    let r := getUserAppointments db (ctx.user_phone.getD "") (some "booked")
    ({ success := true, appointments := some r.2 }, ctx')

/-- `cancel_appointment` of the tool layer (`src/agent/tools.py` lines
188-220): note the state transition happens before the id is validated. -/
def cancelTool (ctx : Context) (db : List Appt) (appointment_id : String) :
    ToolResult × Context × List Appt :=
  if !(isIdentified ctx) then
    ({ success := false, error := some "Please identify yourself first." }, ctx, db)
  else
    let ctx' := (transitionTo ctx .cancelling).2
    if appointment_id == "" then
      ({ success := false,
         error := some "Please provide the appointment ID you want to cancel." },
       ctx', db)
    else
      let r := cancelAppointment db appointment_id (ctx.user_phone.getD "")
      if r.1.success then
        ({ success := true, appointment := r.1.appointment }, ctx', r.2)
      else
        (dbToolResult r.1, ctx', r.2)

/-- `modify_appointment` of the tool layer (`src/agent/tools.py` lines
223-275): the state transition happens before either argument check. -/
def modifyTool (ctx : Context) (db : List Appt) (appointment_id : String)
    (new_date new_time : Option String) : ToolResult × Context × List Appt :=
  if !(isIdentified ctx) then
    ({ success := false, error := some "Please identify yourself first." }, ctx, db)
  else
    let ctx' := (transitionTo ctx .modifying).2
    if appointment_id == "" then
      ({ success := false,
         error := some "Please provide the appointment ID you want to modify." },
       ctx', db)
    else if !(pyTruthy new_date) && !(pyTruthy new_time) then
      ({ success := false,
         error := some "Please specify what you\'d like to change (date and/or time)." },
       ctx', db)
    else
      let r := modifyAppointment db appointment_id (ctx.user_phone.getD "") new_date new_time
      if r.1.success then
        ({ success := true, appointment := r.1.appointment }, ctx', r.2)
      else
        (dbToolResult r.1, ctx', r.2)

/-- `end_conversation` (`src/agent/tools.py` lines 278-305): the summary is
built after the transition attempt, so `final_state` is the post-attempt
state. -/
def endConversation (ctx : Context) : ToolResult × Context :=
  let ctx' := (transitionTo ctx .completed).2
  let summary : Summary :=
    { user_phone := ctx'.user_phone, user_name := ctx'.user_name,
      conversation_turns := ctx'.conversation_turns,
      intents_identified := ctx'.identified_intents,
      final_state := ctx'.state,
      pending_appointment := ctx'.pending_appointment }
  ({ success := true, summary := some summary }, ctx')

/-- An intent the router may be asked to dispatch, with its entities.
`identify_user`'s phone is optional because the mock extractor can produce
`phone = None`; an entity dict missing a *required* key makes the call
itself raise `TypeError`, which the router turns into a failure without
running any tool code — that path mutates nothing and is covered by
`other`. -/
inductive Intent where
  | identify_user (phone : Option String) (name : Option String)
  | fetch_slots
  | book_appointment (date : String) (time : String) (notes : Option String)
  | retrieve_appointments
  | cancel_appointment (appointment_id : String)
  | modify_appointment (appointment_id : String) (new_date new_time : Option String)
  | end_conversation
  | other (intentName : String)

/-- The intent's name string as tracked in `identified_intents`. -/
def Intent.nameStr : Intent → String
  | .identify_user _ _ => "identify_user"
  | .fetch_slots => "fetch_slots"
  | .book_appointment _ _ _ => "book_appointment"
  | .retrieve_appointments => "retrieve_appointments"
  | .cancel_appointment _ => "cancel_appointment"
  | .modify_appointment _ _ _ => "modify_appointment"
  | .end_conversation => "end_conversation"
  | .other n => n

/-- The intents of the router's identification list (`src/agent/router.py`
lines 179-180). -/
def requiresIdentification : Intent → Bool
  | .fetch_slots | .book_appointment _ _ _ | .retrieve_appointments
  | .cancel_appointment _ | .modify_appointment _ _ _ => true
  | _ => false

/-- `IntentRouter._validate_state_for_intent` (`src/agent/router.py` lines
164-190): `identify_user` only from `UNIDENTIFIED`; the five
appointment-manipulating intents require identification; everything else
(`end_conversation` included) passes. -/
def validateStateForIntent (intent : Intent) (ctx : Context) : Bool :=
  match intent with
  | .identify_user _ _ => ctx.state == ConversationState.unidentified
  | .fetch_slots | .book_appointment _ _ _ | .retrieve_appointments
  | .cancel_appointment _ | .modify_appointment _ _ _ => isIdentified ctx
  | _ => true

/-- The failure result the router returns when state validation rejects the
intent (`src/agent/router.py` lines 131-136). -/
def stateErrorResult (ctx : Context) : ToolResult :=
  { success := false,
    error := some "state validation failed",
    current_state := some ctx.state }

/-- Append the dispatched intent to `context.identified_intents`
(`src/agent/router.py` line 146). -/
def appendIntent (ctx : Context) (s : String) : Context :=
  { ctx with identified_intents := ctx.identified_intents ++ [s] }

/-- `IntentRouter.validate_and_dispatch` (`src/agent/router.py` lines
105-162): unknown intents fail without touching the context; known intents
are state-validated, then executed, then recorded in `identified_intents`.
The `identify_user` call with `phone = None` raises `AttributeError` at
`phone.strip()` before any mutation; the router's generic `except` turns it
into a failure (lines 157-162) and the intent append inside the `try` is
skipped. -/
def dispatch (today : Date) (todayIdx : Nat) (intent : Intent) (ctx : Context)
    (db : List Appt) : ToolResult × Context × List Appt :=
  match intent with
  | .other n =>
    if n == "unknown" then
      ({ success := false,
         error := some "I didn\'t understand that. Could you please rephrase?" },
       ctx, db)
    else
      ({ success := false, error := some "Unknown intent" }, ctx, db)
  | .identify_user p nm =>
    if !(validateStateForIntent (.identify_user p nm) ctx) then
      (stateErrorResult ctx, ctx, db)
    else
      match p with
      | none =>
        ({ success := false, error := some "Error executing identify_user" }, ctx, db)
      | some s =>
        let r := identifyUser ctx s nm
        (r.1, appendIntent r.2 "identify_user", db)
  | .fetch_slots =>
    if !(validateStateForIntent .fetch_slots ctx) then
      (stateErrorResult ctx, ctx, db)
    else
      let r := fetchSlots ctx todayIdx
      (r.1, appendIntent r.2 "fetch_slots", db)
  | .book_appointment d t n =>
    if !(validateStateForIntent (.book_appointment d t n) ctx) then
      (stateErrorResult ctx, ctx, db)
    else
      let r := bookAppointment today ctx db d t n
      (r.1, appendIntent r.2.1 "book_appointment", r.2.2)
  | .retrieve_appointments =>
    if !(validateStateForIntent .retrieve_appointments ctx) then
      (stateErrorResult ctx, ctx, db)
    else
      let r := retrieveAppointments ctx db
      (r.1, appendIntent r.2 "retrieve_appointments", db)
  | .cancel_appointment a =>
    if !(validateStateForIntent (.cancel_appointment a) ctx) then
      (stateErrorResult ctx, ctx, db)
    else
      let r := cancelTool ctx db a
      (r.1, appendIntent r.2.1 "cancel_appointment", r.2.2)
  | .modify_appointment a nd nt =>
    if !(validateStateForIntent (.modify_appointment a nd nt) ctx) then
      (stateErrorResult ctx, ctx, db)
    else
      let r := modifyTool ctx db a nd nt
      (r.1, appendIntent r.2.1 "modify_appointment", r.2.2)
  | .end_conversation =>
    if !(validateStateForIntent .end_conversation ctx) then
      (stateErrorResult ctx, ctx, db)
    else
      let r := endConversation ctx
      (r.1, appendIntent r.2 "end_conversation", db)

/-- A session: a sequence of dispatch calls (each with its own wall-clock
values) run against a fresh context and the fresh mock store. -/
def runDispatch (steps : List (Date × Nat × Intent)) : Context × List Appt :=
  steps.foldl
    (fun acc step =>
      let r := dispatch step.1 step.2.1 step.2.2 acc.1 acc.2
      (r.2.1, r.2.2))
    (initialContext, [])

/-- The candidate slots of the spec's `fetch_slots` description: next 7 days,
weekdays only, start hours 09:00-16:00.  Stated from the spec's words for
comparison with the code. -/
def specCandidateSlots (todayIdx : Nat) : List Slot :=
  ((List.range' 1 7).filter (fun off => (todayIdx + off) % 7 < 5)).flatMap
    (fun off => AVAILABLE_HOURS.map (fun h => ⟨todayIdx + off, h⟩))

/-- The spec's claimed available-slot list: the candidates minus exactly the
slots the store reports as already booked (`booked` is the set of booked
`(day, hour)` slots the store holds).  Stated from the spec's words for
comparison with the code. -/
def specAvailableSlots (booked : List (Nat × Nat)) (todayIdx : Nat) : List Slot :=
  (specCandidateSlots todayIdx).filter (fun s => !(booked.contains (s.day, s.hour)))

/-- The slot list `fetch_slots` actually computes, stated declaratively (for
the amended claim): candidates minus the fixed mock exclusions, independent
of the store. -/
def amendedSlots (todayIdx : Nat) : List Slot :=
  ((List.range' 1 7).filter
      (fun off => AVAILABLE_DAYS.contains ((todayIdx + off) % 7))).flatMap
    (fun off =>
      (AVAILABLE_HOURS.filter (fun h => !(mockExcluded off h))).map
        (fun h => ⟨todayIdx + off, h⟩))

/-! Concrete fixtures for witnesses and counterexamples. -/

/-- A normalised, valid phone number. -/
def phoneA : String := "5551234567"

/-- An identified context sitting in state `IDENTIFIED`. -/
def ctxIdentified : Context := { state := .identified, user_phone := some phoneA }

/-- An identified context sitting in state `BROWSING_SLOTS` (as after
`fetch_slots`). -/
def ctxBrowsing : Context := { state := .browsingSlots, user_phone := some phoneA }

/-- An identified context sitting in state `RETRIEVING`. -/
def ctxRetrieving : Context := { state := .retrieving, user_phone := some phoneA }

/-- A fixed value for `datetime.now().date()`. -/
def todayFix : Date := ⟨2026, 10, 12⟩

/-- The store after booking one appointment into the fresh store. -/
def dbAfterBook : List Appt :=
  (createAppointment [] phoneA none "2026-10-20" "14:00" none).2

/-- The store after then cancelling that appointment. -/
def dbAfterCancel : List Appt :=
  (cancelAppointment dbAfterBook "mock_1" phoneA).2

end Superbryn

namespace Superbryn

/-! ## Helper lemmas about the state machine -/

/-- `transition_to` leaves every context field but `state` unchanged. -/
theorem transitionTo_snd_cases (ctx : Context) (t : ConversationState) :
    (transitionTo ctx t).2 = ctx ∨ (transitionTo ctx t).2 = { ctx with state := t } := by
  unfold transitionTo
  split
  · exact Or.inr rfl
  · exact Or.inl rfl

/-- `transition_to` never changes `user_phone`. -/
theorem transitionTo_phone (ctx : Context) (t : ConversationState) :
    (transitionTo ctx t).2.user_phone = ctx.user_phone := by
  rcases transitionTo_snd_cases ctx t with h | h <;> rw [h]

/-- `transition_to` never changes `user_name`. -/
theorem transitionTo_name (ctx : Context) (t : ConversationState) :
    (transitionTo ctx t).2.user_name = ctx.user_name := by
  rcases transitionTo_snd_cases ctx t with h | h <;> rw [h]

/-- The state after `transition_to` is the target or the old state. -/
theorem transitionTo_state_cases (ctx : Context) (t : ConversationState) :
    (transitionTo ctx t).2.state = ctx.state ∨ (transitionTo ctx t).2.state = t := by
  rcases transitionTo_snd_cases ctx t with h | h <;> rw [h]
  · exact Or.inl rfl
  · exact Or.inr rfl

/-- C2.  For every conversation state `s` and target `t`, `transition_to(t)`
on a context in state `s` returns `true` and sets the state to `t` exactly
when `t` is in the transition table's allowed-target list for `s`; otherwise
it returns `false` and leaves the context untouched (the function is total,
so it never raises).  In particular `Completed`'s allowed-target list is
empty, so a completed context has no successful outgoing transition. -/
theorem transition_table_correct (ctx : Context) (t : ConversationState) :
    transitionTo ctx t =
      (if t ∈ validTransitions ctx.state then (true, { ctx with state := t })
       else (false, ctx)) ∧
    validTransitions ConversationState.completed = [] := by
  refine ⟨?_, rfl⟩
  unfold transitionTo canTransitionTo
  rcases h : (validTransitions ctx.state).contains t with _ | _
  · rw [if_neg]
    · rw [if_neg]
      simpa using h
    · simp
  · rw [if_pos]
    · rw [if_pos]
      simpa using h
    · simp

/-- C4 (code bug).  Booking from `BROWSING_SLOTS` — the state the spec's
happy path reaches via `fetch_slots`, and a state `book_appointment`'s own
docstring declares supported — with a valid future date, an in-hours time and
an empty store: the call reports success and the store gains the booked
record, but `transition_to(COMPLETED)` fails silently (the table has no
`BrowsingSlots → Completed` edge) and the context stays in `BROWSING_SLOTS`
instead of `Completed`. -/
theorem book_from_browsing_state_stuck :
    (bookAppointment todayFix ctxBrowsing [] "2026-10-20" "14:00" none).1.success = true ∧
    (bookAppointment todayFix ctxBrowsing [] "2026-10-20" "14:00" none).2.2.length = 1 ∧
    (bookAppointment todayFix ctxBrowsing [] "2026-10-20" "14:00" none).2.1.state =
      ConversationState.browsingSlots ∧
    ConversationState.browsingSlots ≠ ConversationState.completed := by
  decide

/-- C5 (code bug).  `end_conversation` called in state `RETRIEVING`: it
returns a success result carrying a summary, but `transition_to(COMPLETED)`
fails silently (the table only allows `Identified → Completed` and
`Confirming → Completed`) and the context stays in `RETRIEVING`, not
`Completed` — contradicting the function's own docstring ("Can be called
from any state. Transition to: COMPLETED"). -/
theorem end_conversation_state_stuck :
    (endConversation ctxRetrieving).1.success = true ∧
    ((endConversation ctxRetrieving).1.summary).isSome = true ∧
    (endConversation ctxRetrieving).2.state = ConversationState.retrieving ∧
    ConversationState.retrieving ≠ ConversationState.completed := by
  decide

/-- C7 counterexample.  With an *empty* store, every candidate weekday slot
is unbooked, so under the claim ("excludes exactly those slots the store
reports as already booked") all 40 candidates of the week after a Monday
would be available; the code instead reports 33, because its exclusions are
a fixed mock set (hour 12 daily, hours 9 and 10 on the first day) computed
without consulting the store: slot (day 2, 12:00) is unbooked yet
excluded. -/
theorem fetch_slots_ignores_store :
    (specAvailableSlots [] 0).length = 40 ∧
    (fetchSlots ctxIdentified 0).1.total_available = some 33 ∧
    (⟨2, 12⟩ : Slot) ∈ specAvailableSlots [] 0 ∧
    (⟨2, 12⟩ : Slot) ∉ fetchSlotsList 0 ∧
    isIdentified ctxIdentified = true := by
  decide

/-- C9 counterexample.  The spec says normalisation strips `- . ( ) space`;
the code strips only `- ( ) space`.  On `"555.123.4567"` the spec's
normalisation yields ten digits (so the claim demands success), but the code
keeps the dots, fails the regex, returns failure and leaves the context
unchanged. -/
theorem dot_phone_rejected :
    matchPhoneRegex (specNormalizePhone "555.123.4567").data = true ∧
    normalizePhone "555.123.4567" = "555.123.4567" ∧
    (identifyUser initialContext "555.123.4567" none).1.success = false ∧
    (identifyUser initialContext "555.123.4567" none).2 = initialContext := by
  decide

/-- C10 counterexample.  `ctxBrowsing` is an identified context, yet
`cancel_appointment("")` on it returns failure *without* mutating the
conversation state (the `BrowsingSlots → Cancelling` transition is illegal
and fails silently), refuting the claim that the failure always comes with a
state mutation for every identified context. -/
theorem cancel_browsing_no_mutation :
    isIdentified ctxBrowsing = true ∧
    (cancelTool ctxBrowsing [] "").1.success = false ∧
    (cancelTool ctxBrowsing [] "").2.1 = ctxBrowsing ∧
    (cancelTool ctxBrowsing [] "").2.2 = ([] : List Appt) := by
  decide

/-- C9 (amended).  `identify_user` normalises the phone by stripping
surrounding whitespace and deleting `'-'`, `' '`, `'('`, `')'` (but *not*
`'.'`), then succeeds exactly when the normalised string matches
`^\+?1?\d{10,}$`; on success it stores the normalised phone (and the given
name), on failure it returns a failure result and leaves the context — in
particular `user_phone` and `state` — unchanged. -/
theorem identify_normalization_correct (ctx : Context) (phone : String)
    (name : Option String) :
    ((identifyUser ctx phone name).1.success =
      matchPhoneRegex (normalizePhone phone).data) ∧
    (matchPhoneRegex (normalizePhone phone).data = true →
      (identifyUser ctx phone name).2.user_phone = some (normalizePhone phone) ∧
      (identifyUser ctx phone name).2.user_name = name ∧
      (identifyUser ctx phone name).1.phone = some (normalizePhone phone)) ∧
    (matchPhoneRegex (normalizePhone phone).data = false →
      (identifyUser ctx phone name).2 = ctx) := by
  unfold identifyUser
  rcases h : matchPhoneRegex (normalizePhone phone).data with _ | _
  · simp [h]
  · simp [h, transitionTo_phone, transitionTo_name]

/-- Witness for C9's amended theorem at a concrete input: a dashed phone
number normalises to ten digits and is stored. -/
theorem identify_normalization_witness :
    (identifyUser initialContext "555-123-4567" none).2.user_phone =
      some (normalizePhone "555-123-4567") :=
  ((identify_normalization_correct initialContext "555-123-4567" none).2.1
    (by decide)).1

/-- C10 (amended).  `cancel_appointment` and `modify_appointment` attempt the
state transition *before* validating their arguments.  From state
`IDENTIFIED` (where the transition is legal): a cancel with an empty
`appointment_id`, or a modify with neither `new_date` nor `new_time` truthy,
returns a failure result, yet the conversation state has been mutated to
`CANCELLING` / `MODIFYING` and no store call is made (the store is returned
unchanged).  (From other identified states, e.g. `BrowsingSlots`, the
transition fails silently and the state is *not* mutated — see the
counterexample.) -/
theorem early_transition_before_validation (ctx : Context) (db : List Appt)
    (appointment_id : String) (new_date new_time : Option String)
    (h1 : ctx.state = ConversationState.identified)
    (h2 : ctx.user_phone.isSome = true) :
    ((cancelTool ctx db "").1.success = false ∧
     (cancelTool ctx db "").2.1.state = ConversationState.cancelling ∧
     (cancelTool ctx db "").2.2 = db) ∧
    (pyTruthy new_date = false → pyTruthy new_time = false →
     (modifyTool ctx db appointment_id new_date new_time).1.success = false ∧
     (modifyTool ctx db appointment_id new_date new_time).2.1.state =
       ConversationState.modifying ∧
     (modifyTool ctx db appointment_id new_date new_time).2.2 = db) := by
  have hid : isIdentified ctx = true := by
    simp [isIdentified, h1, h2]
  constructor
  · simp [cancelTool, hid, transitionTo, canTransitionTo, h1, validTransitions]
  · intro hnd hnt
    unfold modifyTool
    rcases hi : appointment_id == "" with _ | _
    · simp [hid, hi, hnd, hnt, transitionTo, canTransitionTo, h1, validTransitions]
    · simp [hid, hi, transitionTo, canTransitionTo, h1, validTransitions]

/-- Witness for C10's amended theorem: from `ctxIdentified`, the failing
cancel and modify calls both leave their mark on the state. -/
theorem early_transition_witness :
    (cancelTool ctxIdentified [] "").2.1.state = ConversationState.cancelling ∧
    (modifyTool ctxIdentified [] "mock_1" none none).2.1.state =
      ConversationState.modifying :=
  ⟨(early_transition_before_validation ctxIdentified [] "mock_1" none none
      (by decide) (by decide)).1.2.1,
   ((early_transition_before_validation ctxIdentified [] "mock_1" none none
      (by decide) (by decide)).2 (by decide) (by decide)).2.1⟩

/-! ## Decimal rendering of the mock ids is injective -/

/-- With fuel at least `n`, the fuelled digit function computes
`natDigits n`. -/
theorem natDigitsF_fuel_irrel : ∀ f n, n ≤ f → natDigitsF f n = natDigits n := by
  intro f
  induction f using Nat.strong_induction_on with
  | _ f ih =>
    intro n hn
    match f with
    | 0 =>
      interval_cases n
      rfl
    | f' + 1 =>
      by_cases h10 : n < 10
      · match n with
        | 0 => rfl
        | k + 1 =>
          have e1 : natDigitsF (f' + 1) (k + 1) =
              if k + 1 < 10 then [digitChar (k + 1)]
              else natDigitsF f' ((k + 1) / 10) ++ [digitChar ((k + 1) % 10)] := rfl
          have e2 : natDigits (k + 1) =
              if k + 1 < 10 then [digitChar (k + 1)]
              else natDigitsF k ((k + 1) / 10) ++ [digitChar ((k + 1) % 10)] := rfl
          rw [e1, e2, if_pos h10, if_pos h10]
      · match n with
        | k + 1 =>
          have e1 : natDigitsF (f' + 1) (k + 1) =
              if k + 1 < 10 then [digitChar (k + 1)]
              else natDigitsF f' ((k + 1) / 10) ++ [digitChar ((k + 1) % 10)] := rfl
          have e2 : natDigits (k + 1) =
              if k + 1 < 10 then [digitChar (k + 1)]
              else natDigitsF k ((k + 1) / 10) ++ [digitChar ((k + 1) % 10)] := rfl
          rw [e1, e2, if_neg h10, if_neg h10,
            ih f' (by omega) ((k + 1) / 10) (by omega),
            ih k (by omega) ((k + 1) / 10) (by omega)]

/-- A number below ten renders as its single digit. -/
theorem natDigits_lt (n : Nat) (h : n < 10) : natDigits n = [digitChar n] := by
  match n with
  | 0 => rfl
  | k + 1 =>
    have e : natDigits (k + 1) =
        if k + 1 < 10 then [digitChar (k + 1)]
        else natDigitsF k ((k + 1) / 10) ++ [digitChar ((k + 1) % 10)] := rfl
    rw [e, if_pos h]

/-- A number of ten or more renders as its leading digits then its last. -/
theorem natDigits_ge (n : Nat) (h : 10 ≤ n) :
    natDigits n = natDigits (n / 10) ++ [digitChar (n % 10)] := by
  match n with
  | k + 1 =>
    have e : natDigits (k + 1) =
        if k + 1 < 10 then [digitChar (k + 1)]
        else natDigitsF k ((k + 1) / 10) ++ [digitChar ((k + 1) % 10)] := rfl
    rw [e, if_neg (by omega), natDigitsF_fuel_irrel k ((k + 1) / 10) (by omega)]

/-- A rendering is never empty. -/
theorem natDigits_ne_nil (n : Nat) : natDigits n ≠ [] := by
  by_cases h : n < 10
  · rw [natDigits_lt n h]
    simp
  · rw [natDigits_ge n (by omega)]
    simp

/-- The ten digit characters are pairwise distinct. -/
theorem digitChar_inj : ∀ a, a < 10 → ∀ b, b < 10 → digitChar a = digitChar b → a = b := by
  decide

/-- Appending one element is injective in both parts. -/
theorem append_singleton_inj {α : Type} (xs ys : List α) (x y : α)
    (h : xs ++ [x] = ys ++ [y]) : xs = ys ∧ x = y := by
  have h2 := congrArg List.reverse h
  simp only [List.reverse_append, List.reverse_cons, List.reverse_nil,
    List.nil_append, List.cons_append] at h2
  obtain ⟨hx, hrev⟩ := List.cons.inj h2
  refine ⟨?_, hx⟩
  have := congrArg List.reverse hrev
  simpa using this

/-- Decimal rendering is injective. -/
theorem natDigits_inj : ∀ a b, natDigits a = natDigits b → a = b := by
  intro a
  induction a using Nat.strong_induction_on with
  | _ a ih =>
    intro b hab
    by_cases ha : a < 10 <;> by_cases hb : b < 10
    · rw [natDigits_lt a ha, natDigits_lt b hb] at hab
      exact digitChar_inj a ha b hb (List.cons.inj hab).1
    · rw [natDigits_lt a ha, natDigits_ge b (by omega)] at hab
      rcases hn : natDigits (b / 10) with _ | ⟨c, cs⟩
      · exact absurd hn (natDigits_ne_nil _)
      · rw [hn] at hab
        simp at hab
    · rw [natDigits_ge a (by omega), natDigits_lt b hb] at hab
      rcases hn : natDigits (a / 10) with _ | ⟨c, cs⟩
      · exact absurd hn (natDigits_ne_nil _)
      · rw [hn] at hab
        simp at hab
    · rw [natDigits_ge a (by omega), natDigits_ge b (by omega)] at hab
      obtain ⟨h1, h2⟩ := append_singleton_inj _ _ _ _ hab
      have hdiv : a / 10 = b / 10 :=
        ih (a / 10) (Nat.div_lt_self (by omega) (by omega)) (b / 10) h1
      have hmod : a % 10 = b % 10 :=
        digitChar_inj (a % 10) (Nat.mod_lt _ (by omega)) (b % 10)
          (Nat.mod_lt _ (by omega)) h2
      have e1 : 10 * (a / 10) + a % 10 = a := Nat.div_add_mod a 10
      have e2 : 10 * (b / 10) + b % 10 = b := Nat.div_add_mod b 10
      omega

/-- The mock id rendering `f"mock_{n}"` is injective. -/
theorem mkId_inj (a b : Nat) (h : mkId a = mkId b) : a = b := by
  unfold mkId at h
  have hd := congrArg String.data h
  simp only [List.cons.injEq, true_and] at hd
  exact natDigits_inj a b hd

/-! ## Store invariants -/

/-- Unfolding the slot-clash test to propositions. -/
theorem slotClash_false_iff (a b : Appt) :
    slotClash a b = false ↔
      ¬(a.status = "booked" ∧ b.status = "booked" ∧
        a.appointment_date = b.appointment_date ∧
        a.appointment_time = b.appointment_time) := by
  rw [← Bool.not_eq_true]
  simp [slotClash, and_assoc]

/-- Unfolding the double-booking test to propositions. -/
theorem isBookedAt_iff (a : Appt) (d t : String) :
    isBookedAt a d t = true ↔
      a.appointment_date = d ∧ a.appointment_time = t ∧ a.status = "booked" := by
  simp [isBookedAt, and_assoc]

/-- A record that is not `"booked"` clashes with nothing (left). -/
theorem slotClash_false_of_left (a b : Appt) (h : a.status ≠ "booked") :
    slotClash a b = false := by
  rw [slotClash_false_iff]
  rintro ⟨h1, -, -, -⟩
  exact h h1

/-- A record that is not `"booked"` clashes with nothing (right). -/
theorem slotClash_false_of_right (a b : Appt) (h : b.status ≠ "booked") :
    slotClash a b = false := by
  rw [slotClash_false_iff]
  rintro ⟨-, h2, -, -⟩
  exact h h2

/-- `create_appointment` preserves the no-double-booking invariant. -/
theorem create_noDouble (db : List Appt) (p : String) (n : Option String)
    (d t : String) (notes : Option String) (h : NoDouble db) :
    NoDouble (createAppointment db p n d t notes).2 := by
  unfold createAppointment
  rcases hany : db.any (fun a => isBookedAt a d t) with _ | _
  · simp only [hany, Bool.false_eq_true, if_false]
    rw [NoDouble, List.pairwise_append]
    refine ⟨h, List.pairwise_singleton _ _, ?_⟩
    intro x hx y hy
    simp only [List.mem_singleton] at hy
    subst hy
    rw [slotClash_false_iff]
    rintro ⟨hx1, -, hd, ht⟩
    have hfalse := List.any_eq_false.mp hany x hx
    rw [isBookedAt_iff] at hfalse
    exact hfalse ⟨hd, ht, hx1⟩
  · simpa only [hany, if_true] using h

/-- Every record of a post-cancel store is a record of the original store,
possibly with its status set to `"cancelled"`. -/
theorem cancel_mem (db : List Appt) (i p : String) :
    ∀ b ∈ (cancelAppointment db i p).2,
      b ∈ db ∨ ∃ c ∈ db, b = { c with status := "cancelled" } := by
  induction db with
  | nil =>
    intro b hb
    simp [cancelAppointment] at hb
  | cons a rest ih =>
    intro b hb
    unfold cancelAppointment at hb
    rcases hi : a.id == i with _ | _
    · rw [hi] at hb
      simp only [Bool.false_eq_true, if_false] at hb
      rcases List.mem_cons.mp hb with hb | hb
      · exact Or.inl (by simp [hb])
      · rcases ih b hb with h' | ⟨c, hc, he⟩
        · exact Or.inl (List.mem_cons_of_mem _ h')
        · exact Or.inr ⟨c, List.mem_cons_of_mem _ hc, he⟩
    · rw [hi] at hb
      simp only [if_true] at hb
      rcases ho : a.user_phone != p with _ | _
      · rw [ho] at hb
        simp only [Bool.false_eq_true, if_false] at hb
        rcases List.mem_cons.mp hb with hb | hb
        · exact Or.inr ⟨a, List.mem_cons_self _ _, hb⟩
        · exact Or.inl (List.mem_cons_of_mem _ hb)
      · rw [ho] at hb
        simp only [if_true] at hb
        exact Or.inl hb

/-- `cancel_appointment` preserves the no-double-booking invariant. -/
theorem cancel_noDouble (db : List Appt) (i p : String) (h : NoDouble db) :
    NoDouble (cancelAppointment db i p).2 := by
  induction db with
  | nil => simpa [cancelAppointment] using h
  | cons a rest ih =>
    rw [NoDouble, List.pairwise_cons] at h
    obtain ⟨ha, hrest⟩ := h
    unfold cancelAppointment
    rcases hi : a.id == i with _ | _
    · simp only [Bool.false_eq_true, if_false]
      rw [NoDouble, List.pairwise_cons]
      refine ⟨?_, ih hrest⟩
      intro b hb
      rcases cancel_mem rest i p b hb with hb' | ⟨c, hc, he⟩
      · exact ha b hb'
      · subst he
        exact slotClash_false_of_right _ _ (by simp)
    · simp only [if_true]
      rcases ho : a.user_phone != p with _ | _
      · simp only [Bool.false_eq_true, if_false]
        rw [NoDouble, List.pairwise_cons]
        refine ⟨?_, hrest⟩
        intro b hb
        exact slotClash_false_of_left _ _ (by simp)
      · simp only [if_true]
        rw [NoDouble, List.pairwise_cons]
        exact ⟨ha, hrest⟩

/-- Cancelling never changes the sequence of record ids. -/
theorem cancel_map_id (db : List Appt) (i p : String) :
    ((cancelAppointment db i p).2).map (fun a => a.id) = db.map (fun a => a.id) := by
  induction db with
  | nil => rfl
  | cons a rest ih =>
    unfold cancelAppointment
    rcases hi : a.id == i with _ | _
    · simp only [Bool.false_eq_true, if_false, List.map_cons, ih]
    · rcases ho : a.user_phone != p with _ | _ <;> simp

/-- The walk of `modify_appointment` either fails and returns the store
unchanged, or splits the store around the first id match, whose owner and
conflict checks passed, and updates exactly that record. -/
theorem modifyGo_result (full : List Appt) (i p : String) (nd nt : Option String) :
    ∀ l : List Appt,
      (modifyGo full i p nd nt l).2 = l ∨
      ∃ pre a post,
        l = pre ++ a :: post ∧
        (∀ x ∈ pre, (x.id == i) = false) ∧
        (a.id == i) = true ∧
        a.user_phone = p ∧
        modifyConflict full i (pyOr nd a.appointment_date)
          (pyOr nt a.appointment_time) = false ∧
        (modifyGo full i p nd nt l).2 =
          pre ++ { a with appointment_date := pyOr nd a.appointment_date,
                          appointment_time := pyOr nt a.appointment_time } :: post := by
  intro l
  induction l with
  | nil => exact Or.inl rfl
  | cons a rest ih =>
    unfold modifyGo
    rcases hi : a.id == i with _ | _
    · simp only [Bool.false_eq_true, if_false]
      rcases ih with h' | ⟨pre, b, post, hsplit, hpre, hid, howner, hconf, hres⟩
      · exact Or.inl (by rw [h'])
      · refine Or.inr ⟨a :: pre, b, post, by rw [hsplit, List.cons_append], ?_, hid, howner,
          hconf, ?_⟩
        · intro x hx
          rcases List.mem_cons.mp hx with hx | hx
          · rwa [hx]
          · exact hpre x hx
        · simp only [List.cons_append, List.cons.injEq, true_and]
          exact hres
    · simp only [if_true]
      rcases ho : a.user_phone != p with _ | _
      · simp only [Bool.false_eq_true, if_false]
        rcases hc : modifyConflict full i (pyOr nd a.appointment_date)
            (pyOr nt a.appointment_time) with _ | _
        · exact Or.inr ⟨[], a, rest, rfl, by simp, hi, by simpa using ho, hc, rfl⟩
        · exact Or.inl rfl
      · exact Or.inl rfl

/-- Modifying never changes the sequence of record ids. -/
theorem modifyGo_map_id (full : List Appt) (i p : String) (nd nt : Option String) :
    ∀ l : List Appt,
      ((modifyGo full i p nd nt l).2).map (fun a => a.id) = l.map (fun a => a.id) := by
  intro l
  induction l with
  | nil => rfl
  | cons a rest ih =>
    unfold modifyGo
    rcases hi : a.id == i with _ | _
    · simp only [Bool.false_eq_true, if_false, List.map_cons, ih]
    · rcases ho : a.user_phone != p with _ | _
      · rcases hc : modifyConflict full i (pyOr nd a.appointment_date)
            (pyOr nt a.appointment_time) with _ | _ <;> simp [hc]
      · simp

/-- What a failed conflict scan of `modify_appointment` guarantees: no other
record (different id) is booked at the proposed slot. -/
theorem modifyConflict_false_elim (db : List Appt) (i d t : String)
    (h : modifyConflict db i d t = false) :
    ∀ o ∈ db, o.id ≠ i →
      ¬(o.appointment_date = d ∧ o.appointment_time = t ∧ o.status = "booked") := by
  rw [modifyConflict, List.any_eq_false] at h
  rintro o ho hne ⟨h1, h2, h3⟩
  exact h o ho (by simp [bne_iff_ne, hne, h1, h2, h3])

/-- `modify_appointment` preserves the no-double-booking invariant on a store
with pairwise-distinct ids. -/
theorem modify_noDouble (db : List Appt) (i p : String) (nd nt : Option String)
    (hND : NoDouble db) (hids : (db.map (fun a => a.id)).Nodup) :
    NoDouble (modifyAppointment db i p nd nt).2 := by
  unfold modifyAppointment
  rcases modifyGo_result db i p nd nt db with hl |
    ⟨pre, a, post, hsplit, hpre, hid, howner, hconf, hres⟩
  · rw [hl]
    exact hND
  · rw [hres]
    have hai : a.id = i := by simpa using hid
    have hkey : ∀ x ∈ db, x.id ≠ i →
        slotClash x { a with appointment_date := pyOr nd a.appointment_date,
                             appointment_time := pyOr nt a.appointment_time } = false ∧
        slotClash { a with appointment_date := pyOr nd a.appointment_date,
                           appointment_time := pyOr nt a.appointment_time } x = false := by
      intro x hx hxi
      have hc := modifyConflict_false_elim db i _ _ hconf x hx hxi
      constructor
      · rw [slotClash_false_iff]
        rintro ⟨hx1, -, hdd, htt⟩
        exact hc ⟨by simpa using hdd, by simpa using htt, hx1⟩
      · rw [slotClash_false_iff]
        rintro ⟨-, hx1, hdd, htt⟩
        exact hc ⟨by simpa using hdd.symm, by simpa using htt.symm, hx1⟩
    rw [hsplit, NoDouble, List.pairwise_append] at hND
    obtain ⟨hpw1, hpw2, hcross⟩ := hND
    rw [List.pairwise_cons] at hpw2
    obtain ⟨-, hpw3⟩ := hpw2
    rw [hsplit] at hids
    simp only [List.map_append, List.map_cons] at hids
    rw [List.nodup_append] at hids
    obtain ⟨-, hn2, hdisj⟩ := hids
    have hapre : ∀ x ∈ pre, x.id ≠ i := by
      intro x hx he
      exact hdisj (List.mem_map.mpr ⟨x, hx, rfl⟩)
        (by rw [he, ← hai]; exact List.mem_cons_self _ _)
    have hapost : ∀ x ∈ post, x.id ≠ i := by
      intro x hx he
      rw [List.nodup_cons] at hn2
      exact hn2.1 (List.mem_map.mpr ⟨x, hx, by rw [he, hai]⟩)
    rw [NoDouble, List.pairwise_append]
    refine ⟨hpw1, ?_, ?_⟩
    · rw [List.pairwise_cons]
      refine ⟨?_, hpw3⟩
      intro y hy
      exact (hkey y
        (by rw [hsplit]; exact List.mem_append_right _ (List.mem_cons_of_mem _ hy))
        (hapost y hy)).2
    · intro x hx y hy
      rcases List.mem_cons.mp hy with rfl | hy'
      · exact (hkey x (by rw [hsplit]; exact List.mem_append_left _ hx) (hapre x hx)).1
      · exact hcross x hx y (List.mem_cons_of_mem _ hy')

/-- `create_appointment` keeps the id layout. -/
theorem create_idsOk (db : List Appt) (p : String) (n : Option String)
    (d t : String) (notes : Option String) (h : IdsOk db) :
    IdsOk (createAppointment db p n d t notes).2 := by
  unfold createAppointment
  rcases hany : db.any (fun a => isBookedAt a d t) with _ | _
  · simp only [hany, Bool.false_eq_true, if_false]
    rw [IdsOk, List.length_append, List.map_append]
    simp only [List.length_singleton, List.map_cons, List.map_nil]
    rw [List.range_succ, List.map_append, ← h]
    simp
  · simpa only [hany, if_true] using h

/-- `cancel_appointment` keeps the id layout. -/
theorem cancel_idsOk (db : List Appt) (i p : String) (h : IdsOk db) :
    IdsOk (cancelAppointment db i p).2 := by
  have hm := cancel_map_id db i p
  have hl : (cancelAppointment db i p).2.length = db.length := by
    have := congrArg List.length hm
    simpa using this
  rw [IdsOk, hm, hl]
  exact h

/-- `modify_appointment` keeps the id layout. -/
theorem modify_idsOk (db : List Appt) (i p : String) (nd nt : Option String)
    (h : IdsOk db) : IdsOk (modifyAppointment db i p nd nt).2 := by
  have hm := modifyGo_map_id db i p nd nt db
  have hl : (modifyGo db i p nd nt db).2.length = db.length := by
    have := congrArg List.length hm
    simpa using this
  rw [modifyAppointment, IdsOk, hm, hl]
  exact h

/-- On a well-laid-out store the ids are pairwise distinct. -/
theorem idsOk_nodup (db : List Appt) (h : IdsOk db) :
    (db.map (fun a => a.id)).Nodup := by
  rw [h]
  refine List.Nodup.map ?_ (List.nodup_range _)
  intro x y hxy
  have := mkId_inj (x + 1) (y + 1) hxy
  omega

/-- Every store call preserves both store invariants. -/
theorem applyOp_inv (db : List Appt) (op : DbOp) (h1 : NoDouble db) (h2 : IdsOk db) :
    NoDouble (applyOp db op) ∧ IdsOk (applyOp db op) := by
  cases op with
  | create p n d t notes =>
    exact ⟨create_noDouble db p n d t notes h1, create_idsOk db p n d t notes h2⟩
  | cancel i p =>
    exact ⟨cancel_noDouble db i p h1, cancel_idsOk db i p h2⟩
  | modify i p nd nt =>
    exact ⟨modify_noDouble db i p nd nt h1 (idsOk_nodup db h2), modify_idsOk db i p nd nt h2⟩

/-- Both invariants hold along any run from an invariant store. -/
theorem runOps_aux : ∀ (ops : List DbOp) (db : List Appt),
    NoDouble db → IdsOk db →
    NoDouble (ops.foldl applyOp db) ∧ IdsOk (ops.foldl applyOp db) := by
  intro ops
  induction ops with
  | nil =>
    intro db h1 h2
    exact ⟨h1, h2⟩
  | cons op rest ih =>
    intro db h1 h2
    have h := applyOp_inv db op h1 h2
    simpa only [List.foldl_cons] using ih (applyOp db op) h.1 h.2

/-- A successful booking: the tool reports success and appends the booked
record to the store. -/
theorem book_success_db (today : Date) (ctx : Context) (db : List Appt)
    (date time : String) (notes : Option String) (dd : Date) (tt : TimeHM)
    (hid : isIdentified ctx = true) (hd : parseDate date = some dd)
    (ht : parseTime time = some tt) (hpast : dateLt dd today = false)
    (hhour : AVAILABLE_HOURS.contains tt.hour = true)
    (hfree : db.any (fun a => isBookedAt a date time) = false) :
    (bookAppointment today ctx db date time notes).1.success = true ∧
    (bookAppointment today ctx db date time notes).2.2 =
      db ++ [{ id := mkId (db.length + 1), user_phone := ctx.user_phone.getD "",
               user_name := ctx.user_name, appointment_date := date,
               appointment_time := time, status := "booked", notes := notes }] := by
  unfold bookAppointment
  rw [hd, ht]
  simp only [hid, Bool.not_true, Bool.false_eq_true, if_false, hpast, hhour,
    createAppointment, hfree, Bool.not_false, if_true]
  simp

/-- A booking against a store already booked at the slot: the tool passes the
store's conflict error through and leaves the store unchanged. -/
theorem book_conflict_db (today : Date) (ctx : Context) (db : List Appt)
    (date time : String) (notes : Option String) (dd : Date) (tt : TimeHM)
    (hid : isIdentified ctx = true) (hd : parseDate date = some dd)
    (ht : parseTime time = some tt) (hpast : dateLt dd today = false)
    (hhour : AVAILABLE_HOURS.contains tt.hour = true)
    (hbooked : db.any (fun a => isBookedAt a date time) = true) :
    (bookAppointment today ctx db date time notes).1.success = false ∧
    (bookAppointment today ctx db date time notes).1.error =
      some "This time slot is already booked. Please choose another time." ∧
    (bookAppointment today ctx db date time notes).2.2 = db := by
  unfold bookAppointment
  rw [hd, ht]
  simp only [hid, Bool.not_true, Bool.false_eq_true, if_false, hpast, hhour,
    createAppointment, hbooked, if_true, dbToolResult, Bool.not_false]
  simp

/-- C3.  (1) Starting from the fresh store, after *every* sequence of
`create_appointment`, `modify_appointment` and `cancel_appointment` calls, no
two records with status `"booked"` share the same
`(appointment_date, appointment_time)`.  (2) Two `book_appointment` calls for
the identical future in-hours `(date, time)` against a store with no booked
record at that slot: the first succeeds, the second fails with the conflict
error, and the final store holds exactly one booked record for the slot. -/
theorem no_double_booking :
    (∀ ops : List DbOp, NoDouble (runOps ops)) ∧
    (∀ (today : Date) (ctx1 ctx2 : Context) (db : List Appt) (date time : String)
       (n1 n2 : Option String) (dd : Date) (tt : TimeHM),
      isIdentified ctx1 = true → isIdentified ctx2 = true →
      parseDate date = some dd → parseTime time = some tt →
      dateLt dd today = false → AVAILABLE_HOURS.contains tt.hour = true →
      db.any (fun a => isBookedAt a date time) = false →
      (bookAppointment today ctx1 db date time n1).1.success = true ∧
      (bookAppointment today ctx2 (bookAppointment today ctx1 db date time n1).2.2
          date time n2).1.success = false ∧
      (bookAppointment today ctx2 (bookAppointment today ctx1 db date time n1).2.2
          date time n2).1.error =
        some "This time slot is already booked. Please choose another time." ∧
      ((bookAppointment today ctx2 (bookAppointment today ctx1 db date time n1).2.2
          date time n2).2.2.filter (fun a => isBookedAt a date time)).length = 1) := by
  constructor
  · intro ops
    exact (runOps_aux ops [] (List.Pairwise.nil) rfl).1
  · intro today ctx1 ctx2 db date time n1 n2 dd tt hid1 hid2 hd ht hpast hhour hfree
    obtain ⟨hs1, hdb1⟩ :=
      book_success_db today ctx1 db date time n1 dd tt hid1 hd ht hpast hhour hfree
    have happt : isBookedAt
        { id := mkId (db.length + 1), user_phone := ctx1.user_phone.getD "",
          user_name := ctx1.user_name, appointment_date := date,
          appointment_time := time, status := "booked", notes := n1 } date time = true := by
      simp [isBookedAt]
    have hbooked : ((bookAppointment today ctx1 db date time n1).2.2).any
        (fun a => isBookedAt a date time) = true := by
      rw [hdb1, List.any_append]
      simp only [List.any_cons, List.any_nil, happt, Bool.true_or, Bool.or_true]
    obtain ⟨hs2, herr2, hdb2⟩ :=
      book_conflict_db today ctx2 _ date time n2 dd tt hid2 hd ht hpast hhour hbooked
    refine ⟨hs1, hs2, herr2, ?_⟩
    rw [hdb2, hdb1, List.filter_append]
    have hnil : db.filter (fun a => isBookedAt a date time) = [] := by
      rw [List.filter_eq_nil_iff]
      intro x hx
      simpa using List.any_eq_false.mp hfree x hx
    rw [hnil]
    simp [happt]

/-- Witness for C3 at a concrete input: one create in the run, and the
two-booking scenario at `2026-10-20 14:00` from the empty store. -/
theorem no_double_booking_witness :
    NoDouble (runOps [DbOp.create phoneA none "2026-10-20" "14:00" none]) ∧
    (bookAppointment todayFix ctxIdentified [] "2026-10-20" "14:00" none).1.success = true ∧
    (bookAppointment todayFix ctxIdentified
        (bookAppointment todayFix ctxIdentified [] "2026-10-20" "14:00" none).2.2
        "2026-10-20" "14:00" none).1.success = false :=
  ⟨no_double_booking.1 _,
   (no_double_booking.2 todayFix ctxIdentified ctxIdentified [] "2026-10-20" "14:00"
      none none ⟨2026, 10, 20⟩ ⟨14, 0⟩ (by decide) (by decide) (by decide) (by decide)
      (by decide) (by decide) (by decide)).1,
   (no_double_booking.2 todayFix ctxIdentified ctxIdentified [] "2026-10-20" "14:00"
      none none ⟨2026, 10, 20⟩ ⟨14, 0⟩ (by decide) (by decide) (by decide) (by decide)
      (by decide) (by decide) (by decide)).2.1⟩

/-- One-step unfolding equation of `cancel_appointment` on a non-empty
store. -/
theorem cancelAppointment_cons (b : Appt) (rest : List Appt) (i p : String) :
    cancelAppointment (b :: rest) i p =
      if b.id == i then
        if b.user_phone != p then
          ({ success := false,
             error := some "You don\'t have permission to cancel this appointment." },
           b :: rest)
        else
          ({ success := true, appointment := some { b with status := "cancelled" } },
           { b with status := "cancelled" } :: rest)
      else ((cancelAppointment rest i p).1, b :: (cancelAppointment rest i p).2) := rfl

/-- Unfolding equation of `cancel_appointment`: no id match at the head. -/
theorem cancel_cons_ne (b : Appt) (rest : List Appt) (i p : String)
    (hi : (b.id == i) = false) :
    cancelAppointment (b :: rest) i p =
      ((cancelAppointment rest i p).1, b :: (cancelAppointment rest i p).2) := by
  rw [cancelAppointment_cons, hi]
  simp

/-- Unfolding equation of `cancel_appointment`: id match at the head, owner
check passed. -/
theorem cancel_cons_owner (b : Appt) (rest : List Appt) (i p : String)
    (hi : (b.id == i) = true) (ho : (b.user_phone != p) = false) :
    cancelAppointment (b :: rest) i p =
      ({ success := true, appointment := some { b with status := "cancelled" } },
       { b with status := "cancelled" } :: rest) := by
  rw [cancelAppointment_cons, hi, ho]
  simp

/-- Unfolding equation of `cancel_appointment`: id match at the head, owner
mismatch. -/
theorem cancel_cons_mismatch (b : Appt) (rest : List Appt) (i p : String)
    (hi : (b.id == i) = true) (ho : (b.user_phone != p) = true) :
    cancelAppointment (b :: rest) i p =
      ({ success := false,
         error := some "You don\'t have permission to cancel this appointment." },
       b :: rest) := by
  rw [cancelAppointment_cons, hi, ho]
  simp

/-- C8 (amended).  Cancellation is non-destructive: after a successful
`cancel_appointment` the returned record is still in the store with status
`"cancelled"`; but a second cancel of the same id by the same owner does
*not* fail — it succeeds again (idempotently re-marking the record), rather
than returning the "not found / not permitted" failure the spec claims. -/
theorem cancel_nondestructive_idempotent (db : List Appt) (i p : String)
    (h : (cancelAppointment db i p).1.success = true) :
    ∃ a, (cancelAppointment db i p).1.appointment = some a ∧
      a ∈ (cancelAppointment db i p).2 ∧ a.status = "cancelled" ∧
      (cancelAppointment (cancelAppointment db i p).2 i p).1.success = true := by
  induction db with
  | nil => simp [cancelAppointment] at h
  | cons b rest ih =>
    rcases hi : b.id == i with _ | _
    · rw [cancel_cons_ne b rest i p hi] at h ⊢
      obtain ⟨a, h1, h2, h3, h4⟩ := ih h
      exact ⟨a, h1, List.mem_cons_of_mem _ h2, h3, by rw [cancel_cons_ne b _ i p hi]; exact h4⟩
    · rcases ho : b.user_phone != p with _ | _
      · rw [cancel_cons_owner b rest i p hi ho]
        refine ⟨{ b with status := "cancelled" }, rfl, List.mem_cons_self _ _, rfl, ?_⟩
        rw [cancel_cons_owner _ rest i p (by simpa using hi) (by simpa using ho)]
      · rw [cancel_cons_mismatch b rest i p hi ho] at h
        simp at h

/-- Witness for C8's amended theorem: book then cancel twice, concretely. -/
theorem cancel_nondestructive_witness :
    ∃ a, (cancelAppointment dbAfterBook "mock_1" phoneA).1.appointment = some a ∧
      a ∈ (cancelAppointment dbAfterBook "mock_1" phoneA).2 ∧
      a.status = "cancelled" ∧
      (cancelAppointment (cancelAppointment dbAfterBook "mock_1" phoneA).2
        "mock_1" phoneA).1.success = true :=
  cancel_nondestructive_idempotent dbAfterBook "mock_1" phoneA (by decide)

/-- C8 counterexample.  Concretely: create, cancel, cancel again — the second
cancel by the same owner *succeeds* (with no error), where the claim says it
must return a "not found/not permitted" failure. -/
theorem second_cancel_succeeds :
    (cancelAppointment dbAfterBook "mock_1" phoneA).1.success = true ∧
    (cancelAppointment dbAfterCancel "mock_1" phoneA).1.success = true ∧
    (cancelAppointment dbAfterCancel "mock_1" phoneA).1.error = none := by
  decide

/-- C6.  While the context is `Unidentified`, dispatching any of the five
appointment-manipulating intents (`fetch_slots`, `book_appointment`,
`retrieve_appointments`, `cancel_appointment`, `modify_appointment`) is
rejected by the router's pre-dispatch validation: the result is the
state-validation failure, the tool is never invoked, and both the context
(so `user_phone` stays unset) and the store are returned unchanged. -/
theorem unidentified_dispatch_blocked (today : Date) (todayIdx : Nat)
    (intent : Intent) (ctx : Context) (db : List Appt)
    (hs : ctx.state = ConversationState.unidentified)
    (hreq : requiresIdentification intent = true) :
    dispatch today todayIdx intent ctx db = (stateErrorResult ctx, ctx, db) ∧
    (stateErrorResult ctx).success = false := by
  refine ⟨?_, rfl⟩
  have hid : isIdentified ctx = false := by
    simp [isIdentified, hs]
  cases intent <;> simp [requiresIdentification] at hreq <;>
    simp [dispatch, validateStateForIntent, hid]

/-- Witness for C6: a `fetch_slots` dispatch against the fresh context. -/
theorem unidentified_dispatch_blocked_witness :
    dispatch todayFix 0 Intent.fetch_slots initialContext [] =
      (stateErrorResult initialContext, initialContext, []) :=
  (unidentified_dispatch_blocked todayFix 0 Intent.fetch_slots initialContext []
    rfl rfl).1

/-! ## The identification invariant (C1) -/

/-- `fetch_slots` never changes `user_phone`. -/
theorem fetchSlots_phone (ctx : Context) (idx : Nat) :
    (fetchSlots ctx idx).2.user_phone = ctx.user_phone := by
  unfold fetchSlots
  split
  · rfl
  · exact transitionTo_phone ctx _

/-- `fetch_slots` leaves the state or moves it to `BROWSING_SLOTS`. -/
theorem fetchSlots_state (ctx : Context) (idx : Nat) :
    (fetchSlots ctx idx).2.state = ctx.state ∨
    (fetchSlots ctx idx).2.state = ConversationState.browsingSlots := by
  unfold fetchSlots
  split
  · exact Or.inl rfl
  · exact transitionTo_state_cases ctx _

/-- `retrieve_appointments` never changes `user_phone`. -/
theorem retrieveAppointments_phone (ctx : Context) (db : List Appt) :
    (retrieveAppointments ctx db).2.user_phone = ctx.user_phone := by
  unfold retrieveAppointments
  split
  · rfl
  · exact transitionTo_phone ctx _

/-- `retrieve_appointments` leaves the state or moves it to `RETRIEVING`. -/
theorem retrieveAppointments_state (ctx : Context) (db : List Appt) :
    (retrieveAppointments ctx db).2.state = ctx.state ∨
    (retrieveAppointments ctx db).2.state = ConversationState.retrieving := by
  unfold retrieveAppointments
  split
  · exact Or.inl rfl
  · exact transitionTo_state_cases ctx _

/-- `cancel_appointment` (tool) never changes `user_phone`. -/
theorem cancelTool_phone (ctx : Context) (db : List Appt) (i : String) :
    (cancelTool ctx db i).2.1.user_phone = ctx.user_phone := by
  unfold cancelTool
  dsimp only
  repeat' split
  all_goals first
    | rfl
    | exact transitionTo_phone ctx _

/-- `cancel_appointment` (tool) leaves the state or moves it to
`CANCELLING`. -/
theorem cancelTool_state (ctx : Context) (db : List Appt) (i : String) :
    (cancelTool ctx db i).2.1.state = ctx.state ∨
    (cancelTool ctx db i).2.1.state = ConversationState.cancelling := by
  unfold cancelTool
  dsimp only
  repeat' split
  all_goals first
    | exact Or.inl rfl
    | exact transitionTo_state_cases ctx _

/-- `modify_appointment` (tool) never changes `user_phone`. -/
theorem modifyTool_phone (ctx : Context) (db : List Appt) (i : String)
    (nd nt : Option String) :
    (modifyTool ctx db i nd nt).2.1.user_phone = ctx.user_phone := by
  unfold modifyTool
  dsimp only
  repeat' split
  all_goals first
    | rfl
    | exact transitionTo_phone ctx _

/-- `modify_appointment` (tool) leaves the state or moves it to
`MODIFYING`. -/
theorem modifyTool_state (ctx : Context) (db : List Appt) (i : String)
    (nd nt : Option String) :
    (modifyTool ctx db i nd nt).2.1.state = ctx.state ∨
    (modifyTool ctx db i nd nt).2.1.state = ConversationState.modifying := by
  unfold modifyTool
  dsimp only
  repeat' split
  all_goals first
    | exact Or.inl rfl
    | exact transitionTo_state_cases ctx _

/-- `book_appointment` never changes `user_phone`. -/
theorem bookAppointment_phone (today : Date) (ctx : Context) (db : List Appt)
    (d t : String) (n : Option String) :
    (bookAppointment today ctx db d t n).2.1.user_phone = ctx.user_phone := by
  unfold bookAppointment
  dsimp only
  repeat' split
  all_goals first
    | rfl
    | simp [transitionTo_phone]

/-- `book_appointment` leaves the state or moves it to `COMPLETED`. -/
theorem bookAppointment_state (today : Date) (ctx : Context) (db : List Appt)
    (d t : String) (n : Option String) :
    (bookAppointment today ctx db d t n).2.1.state = ctx.state ∨
    (bookAppointment today ctx db d t n).2.1.state = ConversationState.completed := by
  unfold bookAppointment
  dsimp only
  repeat' split
  all_goals first
    | exact Or.inl rfl
    | exact transitionTo_state_cases _ _

/-- `end_conversation` never changes `user_phone`. -/
theorem endConversation_phone (ctx : Context) :
    (endConversation ctx).2.user_phone = ctx.user_phone :=
  transitionTo_phone ctx _

/-- `end_conversation` leaves the state or moves it to `COMPLETED`. -/
theorem endConversation_state (ctx : Context) :
    (endConversation ctx).2.state = ctx.state ∨
    (endConversation ctx).2.state = ConversationState.completed :=
  transitionTo_state_cases ctx _

/-- From `UNIDENTIFIED`, `end_conversation`'s transition fails silently and
the context is unchanged. -/
theorem endConversation_unid (ctx : Context)
    (hs : ctx.state = ConversationState.unidentified) :
    (endConversation ctx).2 = ctx := by
  unfold endConversation transitionTo canTransitionTo
  rw [hs]
  simp [validTransitions]

/-- From `UNIDENTIFIED`, `identify_user` either leaves the context unchanged
(bad phone) or stores the normalised phone and reaches `IDENTIFIED`. -/
theorem identifyUser_unid (ctx : Context) (s : String) (nm : Option String)
    (hs : ctx.state = ConversationState.unidentified) :
    (identifyUser ctx s nm).2 = ctx ∨
    ((identifyUser ctx s nm).2.user_phone = some (normalizePhone s) ∧
     (identifyUser ctx s nm).2.state = ConversationState.identified) := by
  unfold identifyUser
  rcases h : matchPhoneRegex (normalizePhone s).data with _ | _
  · exact Or.inl (by simp [h])
  · refine Or.inr ⟨?_, ?_⟩
    · simp only [h, Bool.not_true, Bool.false_eq_true, if_false]
      rw [transitionTo_phone]
    · simp only [h, Bool.not_true, Bool.false_eq_true, if_false]
      unfold transitionTo canTransitionTo
      rw [show ({ ctx with user_phone := some (normalizePhone s),
                           user_name := nm } : Context).state =
            ConversationState.unidentified from hs]
      simp [validTransitions]

/-- One dispatch call preserves the identification invariant. -/
theorem dispatch_preserves_inv (today : Date) (todayIdx : Nat) (intent : Intent)
    (ctx : Context) (db : List Appt)
    (h : ctx.state ≠ ConversationState.unidentified ↔ ctx.user_phone.isSome = true) :
    ((dispatch today todayIdx intent ctx db).2.1.state ≠
        ConversationState.unidentified ↔
      (dispatch today todayIdx intent ctx db).2.1.user_phone.isSome = true) := by
  by_cases hs : ctx.state = ConversationState.unidentified
  · -- unidentified: only identify_user can change anything
    have hid : isIdentified ctx = false := by
      simp [isIdentified, hs]
    cases intent with
    | identify_user p nm =>
      have hv : validateStateForIntent (.identify_user p nm) ctx = true := by
        simp [validateStateForIntent, hs]
      cases p with
      | none => simpa [dispatch, hv] using h
      | some s =>
        simp only [dispatch, hv, Bool.not_true, Bool.false_eq_true, if_false]
        rcases identifyUser_unid ctx s nm hs with he | ⟨hp, hst⟩
        · rw [he]
          exact h
        · have h1 : (appendIntent (identifyUser ctx s nm).2 "identify_user").state =
              ConversationState.identified := hst
          have h2 : (appendIntent (identifyUser ctx s nm).2
              "identify_user").user_phone = some (normalizePhone s) := hp
          rw [h1, h2]
          simp
    | fetch_slots => simpa [dispatch, validateStateForIntent, hid] using h
    | book_appointment d t n => simpa [dispatch, validateStateForIntent, hid] using h
    | retrieve_appointments => simpa [dispatch, validateStateForIntent, hid] using h
    | cancel_appointment i => simpa [dispatch, validateStateForIntent, hid] using h
    | modify_appointment i nd nt => simpa [dispatch, validateStateForIntent, hid] using h
    | end_conversation =>
      have he := endConversation_unid ctx hs
      simp only [dispatch, validateStateForIntent, Bool.not_true, if_true,
        Bool.not_false, Bool.false_eq_true, if_false]
      rw [show (appendIntent (endConversation ctx).2 "end_conversation").state =
            ctx.state from by rw [he]; rfl,
        show (appendIntent (endConversation ctx).2 "end_conversation").user_phone =
            ctx.user_phone from by rw [he]; rfl]
      exact h
    | other n =>
      simp only [dispatch]
      split <;> exact h
  · -- identified: phone is set and no tool unsets it or reaches UNIDENTIFIED
    have hphone : ctx.user_phone.isSome = true := h.mp hs
    have hid : isIdentified ctx = true := by
      simp [isIdentified, hphone, hs]
    have finish : ∀ (c : Context) (s : String) (target : ConversationState),
        c.user_phone = ctx.user_phone →
        (c.state = ctx.state ∨ c.state = target) →
        target ≠ ConversationState.unidentified →
        ((appendIntent c s).state ≠ ConversationState.unidentified ↔
          (appendIntent c s).user_phone.isSome = true) := by
      intro c s target hcp hcs htgt
      have e1 : (appendIntent c s).state = c.state := rfl
      have e2 : (appendIntent c s).user_phone = c.user_phone := rfl
      rw [e1, e2, hcp]
      rcases hcs with h' | h' <;> rw [h'] <;>
        exact iff_of_true (by first | exact hs | exact htgt) hphone
    cases intent with
    | identify_user p nm =>
      have hv : validateStateForIntent (.identify_user p nm) ctx = false := by
        simp [validateStateForIntent, hs]
      simpa [dispatch, hv] using h
    | fetch_slots =>
      simp only [dispatch, validateStateForIntent, hid, Bool.not_true,
        Bool.false_eq_true, if_false]
      exact finish _ _ ConversationState.browsingSlots (fetchSlots_phone ctx todayIdx)
        (fetchSlots_state ctx todayIdx) (by simp)
    | book_appointment d t n =>
      simp only [dispatch, validateStateForIntent, hid, Bool.not_true,
        Bool.false_eq_true, if_false]
      exact finish _ _ ConversationState.completed
        (bookAppointment_phone today ctx db d t n)
        (bookAppointment_state today ctx db d t n) (by simp)
    | retrieve_appointments =>
      simp only [dispatch, validateStateForIntent, hid, Bool.not_true,
        Bool.false_eq_true, if_false]
      exact finish _ _ ConversationState.retrieving
        (retrieveAppointments_phone ctx db) (retrieveAppointments_state ctx db) (by simp)
    | cancel_appointment i =>
      simp only [dispatch, validateStateForIntent, hid, Bool.not_true,
        Bool.false_eq_true, if_false]
      exact finish _ _ ConversationState.cancelling (cancelTool_phone ctx db i)
        (cancelTool_state ctx db i) (by simp)
    | modify_appointment i nd nt =>
      simp only [dispatch, validateStateForIntent, hid, Bool.not_true,
        Bool.false_eq_true, if_false]
      exact finish _ _ ConversationState.modifying (modifyTool_phone ctx db i nd nt)
        (modifyTool_state ctx db i nd nt) (by simp)
    | end_conversation =>
      simp only [dispatch, validateStateForIntent, Bool.not_true, if_true,
        Bool.not_false, Bool.false_eq_true, if_false]
      exact finish _ _ ConversationState.completed (endConversation_phone ctx)
        (endConversation_state ctx) (by simp)
    | other n =>
      simp only [dispatch]
      split <;> exact h

/-- The invariant holds along any run of dispatch calls. -/
theorem runDispatch_aux : ∀ (steps : List (Date × Nat × Intent))
    (ctx : Context) (db : List Appt),
    (ctx.state ≠ ConversationState.unidentified ↔ ctx.user_phone.isSome = true) →
    (((steps.foldl
        (fun acc step =>
          let r := dispatch step.1 step.2.1 step.2.2 acc.1 acc.2
          (r.2.1, r.2.2)) (ctx, db)).1.state ≠ ConversationState.unidentified) ↔
      ((steps.foldl
        (fun acc step =>
          let r := dispatch step.1 step.2.1 step.2.2 acc.1 acc.2
          (r.2.1, r.2.2)) (ctx, db)).1.user_phone.isSome = true)) := by
  intro steps
  induction steps with
  | nil =>
    intro ctx db h
    exact h
  | cons s rest ih =>
    intro ctx db h
    simpa only [List.foldl_cons] using
      ih (dispatch s.1 s.2.1 s.2.2 ctx db).2.1 (dispatch s.1 s.2.1 s.2.2 ctx db).2.2
        (dispatch_preserves_inv s.1 s.2.1 s.2.2 ctx db h)

/-- C1.  Starting from a fresh `ConversationContext` (state `Unidentified`,
`user_phone` unset) and the fresh store, after every sequence of dispatch
calls — any intents, any entities, any wall-clock values — the context's
state differs from `Unidentified` exactly when its `user_phone` is set. -/
theorem identification_invariant_holds (steps : List (Date × Nat × Intent)) :
    ((runDispatch steps).1.state ≠ ConversationState.unidentified ↔
      (runDispatch steps).1.user_phone.isSome = true) := by
  unfold runDispatch
  exact runDispatch_aux steps initialContext [] (by simp [initialContext])

/-! ## The slot loop of `fetch_slots` (C7) -/

/-- An append-an-element-if loop is a filter-then-map. -/
theorem foldl_filter_map_append {α β : Type} (p : α → Bool) (g : α → β) :
    ∀ (l : List α) (acc : List β),
      l.foldl (fun a x => if p x then a ++ [g x] else a) acc =
        acc ++ (l.filter p).map g := by
  intro l
  induction l with
  | nil =>
    intro acc
    simp
  | cons x xs ih =>
    intro acc
    rcases hp : p x with _ | _
    · simp only [List.foldl_cons, List.filter_cons, hp, Bool.false_eq_true, if_false]
      exact ih acc
    · simp only [List.foldl_cons, List.filter_cons, hp, if_true, List.map_cons]
      rw [ih]
      simp

/-- A loop whose step appends a block is a `flatMap`. -/
theorem foldl_append_flatMap {α β : Type} (f : α → List β) (step : List β → α → List β)
    (hstep : ∀ a x, step a x = a ++ f x) :
    ∀ (l : List α) (acc : List β), l.foldl step acc = acc ++ l.flatMap f := by
  intro l
  induction l with
  | nil =>
    intro acc
    simp
  | cons x xs ih =>
    intro acc
    rw [List.foldl_cons, hstep, ih]
    simp

/-- Guarding each block by a test is flat-mapping over the filtered list. -/
theorem flatMap_if_filter {α β : Type} (w : α → Bool) (m : α → List β) :
    ∀ l : List α,
      (l.flatMap fun x => if w x then m x else []) = (l.filter w).flatMap m := by
  intro l
  induction l with
  | nil => rfl
  | cons x xs ih =>
    rcases hw : w x with _ | _ <;>
      simp [List.filter_cons, hw, ih]

/-- The imperative slot loop of `fetch_slots` computes exactly the
declarative list `amendedSlots`: weekday offsets 1..7, hours 9..16, minus
the fixed mock exclusions — with no reference to the store. -/
theorem fetchSlotsList_eq (todayIdx : Nat) :
    fetchSlotsList todayIdx = amendedSlots todayIdx := by
  unfold fetchSlotsList amendedSlots
  rw [foldl_append_flatMap
    (fun day_offset =>
      if AVAILABLE_DAYS.contains ((todayIdx + day_offset) % 7) then
        (AVAILABLE_HOURS.filter (fun h => !(mockExcluded day_offset h))).map
          (fun h => (⟨todayIdx + day_offset, h⟩ : Slot))
      else [])
    _ ?_ (List.range' 1 7) []]
  · rw [List.nil_append,
      flatMap_if_filter (fun off => AVAILABLE_DAYS.contains ((todayIdx + off) % 7))
        (fun off =>
          (AVAILABLE_HOURS.filter (fun h => !(mockExcluded off h))).map
            (fun h => (⟨todayIdx + off, h⟩ : Slot)))]
  · intro acc off
    rcases hw : AVAILABLE_DAYS.contains ((todayIdx + off) % 7) with _ | _
    · simp only [hw, Bool.false_eq_true, if_false, List.append_nil]
    · simp only [hw, if_true]
      exact foldl_filter_map_append (fun h => !(mockExcluded off h))
        (fun h => (⟨todayIdx + off, h⟩ : Slot)) AVAILABLE_HOURS acc

/-- C7 (amended).  For every identified context, `fetch_slots` succeeds and
returns the first 10 of — and the total count of — the slots of the next 7
days restricted to weekdays and start hours 09:00-16:00, minus a *fixed mock
exclusion set* (12:00 every day; 09:00 and 10:00 on the first day ahead)
that is computed without consulting the appointment store (the function
reads no store state at all). -/
theorem fetch_slots_mock_exclusions (ctx : Context) (todayIdx : Nat)
    (hid : isIdentified ctx = true) :
    (fetchSlots ctx todayIdx).1.success = true ∧
    (fetchSlots ctx todayIdx).1.slots = some ((amendedSlots todayIdx).take 10) ∧
    (fetchSlots ctx todayIdx).1.total_available =
      some (amendedSlots todayIdx).length ∧
    (∀ s : Slot, s ∈ amendedSlots todayIdx ↔
      ∃ off, off ∈ List.range' 1 7 ∧
        AVAILABLE_DAYS.contains ((todayIdx + off) % 7) = true ∧
        ∃ h, h ∈ AVAILABLE_HOURS ∧ mockExcluded off h = false ∧
          s = ⟨todayIdx + off, h⟩) := by
  refine ⟨?_, ?_, ?_, ?_⟩
  · simp [fetchSlots, hid]
  · simp [fetchSlots, hid, fetchSlotsList_eq]
  · simp [fetchSlots, hid, fetchSlotsList_eq]
  · intro s
    simp only [amendedSlots, List.mem_flatMap, List.mem_filter, List.mem_map]
    constructor
    · rintro ⟨off, ⟨hoff, hw⟩, h, ⟨hh, hex⟩, hs⟩
      exact ⟨off, hoff, hw, h, hh, by simpa using hex, hs.symm⟩
    · rintro ⟨off, hoff, hw, h, hh, hex, hs⟩
      exact ⟨off, ⟨hoff, hw⟩, h, ⟨hh, by simpa using hex⟩, hs.symm⟩

/-- Witness for C7's amended theorem: an identified context and a Monday. -/
theorem fetch_slots_mock_witness :
    (fetchSlots ctxIdentified 0).1.success = true ∧
    (fetchSlots ctxIdentified 0).1.slots = some ((amendedSlots 0).take 10) ∧
    (fetchSlots ctxIdentified 0).1.total_available =
      some (amendedSlots 0).length ∧
    (∀ s : Slot, s ∈ amendedSlots 0 ↔
      ∃ off, off ∈ List.range' 1 7 ∧
        AVAILABLE_DAYS.contains ((0 + off) % 7) = true ∧
        ∃ h, h ∈ AVAILABLE_HOURS ∧ mockExcluded off h = false ∧
          s = ⟨0 + off, h⟩) :=
  fetch_slots_mock_exclusions ctxIdentified 0 (by decide)

end Superbryn
